import Mathlib

/-!
Shallow embedding of the go-battlesnake-server repository: a leveled,
bitmask-gated logger (server/logger.go) and an HTTP request/response
adapter (server/server.go) exposing four routes that decode JSON game
states, delegate to a caller-supplied move function and encode JSON
responses, with an optional debug request-logging middleware.

Modelling conventions:
* A log sink write is modelled as an element of a `List String`; each
  logger method returns the list of lines it writes (empty or a
  singleton), and handlers concatenate the lines they emit in order.
* An HTTP request carries its method, URL path and body; the body is
  `Except String String` because reading it can fail (an `io.ReadAll`
  or decoder read error carries a message).
* A response records the status code finally written (Go's implicit
  200 when no WriteHeader call happens is made explicit), the headers
  explicitly set by the handler, and the body bytes written.
* The standard-library JSON codec (`encoding/json`) is external to the
  repository, so handlers are parameterised by a `JsonCodec` record of
  decode/encode functions, each returning `Except String` as the Go
  calls do.
* The caller-supplied move function may have arbitrary effects of its
  own (it receives the shared logger); those effects are modelled by
  explicitly threading a caller-state type `sigma` through it, so that
  "invoked exactly once with the decoded state" is observable.
-/

deriving instance DecidableEq for Except

namespace Server

/-! ## Leveled logger (server/logger.go) -/

def LError : Nat := 1
def LWarning : Nat := 2
def LInfo : Nat := 4
def LDebug : Nat := 8
def LDefault : Nat := LError ||| LWarning ||| LInfo

structure Logger where
  opts : Nat
deriving DecidableEq

def NewLogger (opts : Nat) : Logger := ⟨opts⟩

def Logger.Enabled (l : Logger) (opt : Nat) : Bool :=
  l.opts &&& opt != 0

def Logger.Info (l : Logger) (msg : String) : List String :=
  if l.opts &&& LInfo ≠ 0 then ["INFO " ++ msg] else []

def Logger.Warn (l : Logger) (msg : String) : List String :=
  if l.opts &&& LWarning ≠ 0 then ["WARN " ++ msg] else []

def Logger.Err (l : Logger) (msg : String) : List String :=
  if l.opts &&& LError ≠ 0 then ["ERROR " ++ msg] else []

def Logger.Debug (l : Logger) (msg : String) : List String :=
  if l.opts &&& LDebug ≠ 0 then ["DEBUG " ++ msg] else []

/-! ## Domain records (server/server.go) -/

def apiVersion : String := "1"

structure Coord where
  X : Int
  Y : Int
deriving DecidableEq

structure Customizations where
  Color : String
  Head : String
  Tail : String
deriving DecidableEq

structure Battlesnake where
  ID : String
  Name : String
  Health : Int
  Body : List Coord
  Head : Coord
  Length : Int
  Latency : String
  Shout : String
  Squad : String
  Customizations : Customizations
deriving DecidableEq

structure Board where
  Height : Int
  Width : Int
  Food : List Coord
  Hazards : List Coord
  Snakes : List Battlesnake
deriving DecidableEq

structure RoyaleSettings where
  ShrinkEveryNTurns : Int
deriving DecidableEq

structure SquadSettings where
  AllowBodyCollisions : Bool
  SharedElimination : Bool
  SharedHealth : Bool
  SharedLength : Bool
deriving DecidableEq

structure RulesetSettings where
  FoodSpawnChance : Int
  MinimumFood : Int
  HazardDamagePerTurn : Int
  HazardMap : String
  HazardMapAuthor : String
  Royale : RoyaleSettings
  Squad : SquadSettings
deriving DecidableEq

structure Ruleset where
  Name : String
  Version : String
  Settings : RulesetSettings
deriving DecidableEq

structure Game where
  ID : String
  Ruleset : Ruleset
  Map : String
  Source : String
  Timeout : Int
deriving DecidableEq

structure GameState where
  Game : Game
  Turn : Int
  Board : Board
  You : Battlesnake
deriving DecidableEq

structure InfoResponse where
  APIVersion : String
  Author : String
  Color : String
  Head : String
  Tail : String
  Version : String
deriving DecidableEq

structure MoveResponse where
  Move : String
  Shout : String
deriving DecidableEq

/-! ## HTTP model -/

/-- An incoming HTTP request: method, URL path, and body. The body is
an `Except` because reading it can fail with an error message. -/
structure Request where
  method : String
  path : String
  body : Except String String
deriving DecidableEq

/-- The response finally produced by a handler: status code written
(Go's implicit 200 is explicit here), the headers the handler set, and
the body bytes written. -/
structure Response where
  status : Nat
  headers : List (String × String)
  body : String
deriving DecidableEq

/-- Result of running a handler: its HTTP response, the log lines it
wrote to the shared sink in order, and the final caller state. -/
structure HResult (sigma : Type) where
  resp : Response
  logs : List String
  st : sigma
deriving DecidableEq

abbrev Handler (sigma : Type) := Request → sigma → HResult sigma

/-- The external `encoding/json` codec the handlers call into:
`json.Decoder.Decode` into a GameState, and `json.Encoder.Encode` of
the info and move responses (the encoded string is all bytes the
encoder writes, trailing newline included). -/
structure JsonCodec where
  decodeGameState : String → Except String GameState
  encodeInfo : InfoResponse → Except String String
  encodeMove : MoveResponse → Except String String

/-- A battlesnake server instance: port, info record, leveled logger
and the caller-supplied move function (threading caller state
`sigma`), plus the JSON codec it calls into. -/
structure BattlesnakeServer (sigma : Type) where
  port : String
  info : InfoResponse
  logger : Logger
  moveFunc : GameState → Logger → sigma → MoveResponse × sigma
  codec : JsonCodec

/-- `New` from server/server.go: overwrites the caller-supplied info
record's APIVersion with the fixed `apiVersion` constant (in Go this
mutates the record through the caller's pointer; here the updated
record is the `info` field of the returned server) and wires the
logger from the given bitmask. -/
def New (sigma : Type) (port : String) (info : InfoResponse) (loggerOpts : Nat)
    (moveFunc : GameState → Logger → sigma → MoveResponse × sigma)
    (codec : JsonCodec) : BattlesnakeServer sigma :=
  { port := port
    info := { info with APIVersion := apiVersion }
    logger := NewLogger loggerOpts
    moveFunc := moveFunc
    codec := codec }

/-! ## Route handlers -/

/-- indexHandler: 404 for any path other than exactly "/"; otherwise
sets content-type and encodes the info record, with 500 on encode
failure. -/
def indexHandler (cfg : BattlesnakeServer sigma) : Handler sigma := fun r s =>
  if r.path ≠ "/" then
    ⟨⟨404, [], ""⟩, [], s⟩
  else
    match cfg.codec.encodeInfo cfg.info with
    | Except.error e =>
        ⟨⟨500, [("content-type", "application/json")], ""⟩,
          cfg.logger.Err ("Failed to encode index response: " ++ e), s⟩
    | Except.ok enc =>
        ⟨⟨200, [("content-type", "application/json")], enc⟩, [], s⟩

/-- startHandler: decodes a GameState from the request body (a body
read failure surfaces as a decode failure), 400 on failure, otherwise
logs the start info line and responds with implicit 200 and empty
body. -/
def startHandler (cfg : BattlesnakeServer sigma) : Handler sigma := fun r s =>
  match r.body.bind cfg.codec.decodeGameState with
  | Except.error e =>
      ⟨⟨400, [], ""⟩, cfg.logger.Err ("Failed to decode start request body: " ++ e), s⟩
  | Except.ok state =>
      ⟨⟨200, [], ""⟩,
        cfg.logger.Info ("Game ID " ++ state.Game.ID ++ " [Turn " ++ toString state.Turn
          ++ "] Snake ID " ++ state.You.ID ++ " - Start"), s⟩

/-- endHandler: identical to startHandler but with suffix "- End". -/
def endHandler (cfg : BattlesnakeServer sigma) : Handler sigma := fun r s =>
  match r.body.bind cfg.codec.decodeGameState with
  | Except.error e =>
      ⟨⟨400, [], ""⟩, cfg.logger.Err ("Failed to decode end request body: " ++ e), s⟩
  | Except.ok state =>
      ⟨⟨200, [], ""⟩,
        cfg.logger.Info ("Game ID " ++ state.Game.ID ++ " [Turn " ++ toString state.Turn
          ++ "] Snake ID " ++ state.You.ID ++ " - End"), s⟩

/-- moveHandler: decodes a GameState (400 on failure), invokes the
caller's move function once with the decoded state and the server's
logger, sets Content-Type and encodes the returned MoveResponse (500
on encode failure), then logs the move info line. -/
def moveHandler (cfg : BattlesnakeServer sigma) : Handler sigma := fun r s =>
  match r.body.bind cfg.codec.decodeGameState with
  | Except.error e =>
      ⟨⟨400, [], ""⟩, cfg.logger.Err ("Failed to decode move request body: " ++ e), s⟩
  | Except.ok state =>
      let res := cfg.moveFunc state cfg.logger s
      match cfg.codec.encodeMove res.1 with
      | Except.error e =>
          ⟨⟨500, [("Content-Type", "application/json")], ""⟩,
            cfg.logger.Err ("Failed to encode move response, " ++ e), res.2⟩
      | Except.ok enc =>
          ⟨⟨200, [("Content-Type", "application/json")], enc⟩,
            cfg.logger.Info ("Game ID " ++ state.Game.ID ++ " [Turn " ++ toString state.Turn
              ++ "] Snake ID " ++ state.You.ID ++ " - Move: " ++ res.1.Move), res.2⟩

/-- withRequestLogging: when the debug bit is enabled at wrapping time,
reads the whole body (400 and no call of `next` on read failure),
restores a fresh body with identical bytes, logs the debug line and
then runs `next`; when the debug bit is disabled the wrapped handler
is returned unchanged. -/
def withRequestLogging (l : Logger) (next : Handler sigma) : Handler sigma :=
  if l.Enabled LDebug then
    fun r s =>
      match r.body with
      | Except.error e =>
          ⟨⟨400, [], ""⟩, l.Err ("Failed to read request body: " ++ e), s⟩
      | Except.ok b =>
          let res := next { r with body := Except.ok b } s
          ⟨res.resp, l.Debug (r.method ++ " " ++ r.path ++ " " ++ b ++ "\n") ++ res.logs, res.st⟩
  else
    next

/-- The ServeMux dispatch wired by `New`: the three exact patterns
"/start", "/end", "/move" match only their exact path; everything else
falls to the "/" subtree pattern bound to the index handler. Every
route is wrapped in withRequestLogging. -/
def serveRequest (cfg : BattlesnakeServer sigma) : Handler sigma := fun r s =>
  if r.path = "/start" then withRequestLogging cfg.logger (startHandler cfg) r s
  else if r.path = "/end" then withRequestLogging cfg.logger (endHandler cfg) r s
  else if r.path = "/move" then withRequestLogging cfg.logger (moveHandler cfg) r s
  else withRequestLogging cfg.logger (indexHandler cfg) r s

/-! ## Concrete instances used to exercise the model -/

/-- The zero GameState, as decoding an empty JSON object produces:
every field takes its Go zero value. -/
def emptyGameState : GameState :=
  { Game :=
      { ID := ""
        Ruleset :=
          { Name := ""
            Version := ""
            Settings :=
              { FoodSpawnChance := 0
                MinimumFood := 0
                HazardDamagePerTurn := 0
                HazardMap := ""
                HazardMapAuthor := ""
                Royale := { ShrinkEveryNTurns := 0 }
                Squad :=
                  { AllowBodyCollisions := false
                    SharedElimination := false
                    SharedHealth := false
                    SharedLength := false } } }
        Map := ""
        Source := ""
        Timeout := 0 }
    Turn := 0
    Board := { Height := 0, Width := 0, Food := [], Hazards := [], Snakes := [] }
    You :=
      { ID := ""
        Name := ""
        Health := 0
        Body := []
        Head := { X := 0, Y := 0 }
        Length := 0
        Latency := ""
        Shout := ""
        Squad := ""
        Customizations := { Color := "", Head := "", Tail := "" } } }

/-- A small concrete stand-in for the external JSON codec: decodes the
literal empty-object document and rejects everything else with the
error text Go's decoder reports on malformed input. -/
def testCodec : JsonCodec :=
  { decodeGameState := fun s =>
      if s = "\x7b\x7d" then Except.ok emptyGameState
      else Except.error "invalid character"
    encodeInfo := fun i =>
      Except.ok ("\x7b\"apiversion\":\"" ++ i.APIVersion ++ "\",\"author\":\"" ++ i.Author
        ++ "\"\x7d\n")
    encodeMove := fun m =>
      Except.ok ("\x7b\"move\":\"" ++ m.Move ++ "\",\"shout\":\"" ++ m.Shout ++ "\"\x7d\n") }

/-- A concrete move function that counts its own invocations in the
caller state and always answers up. -/
def testMoveFunc : GameState → Logger → Nat → MoveResponse × Nat :=
  fun _ _ n => ({ Move := "up", Shout := "Hi!" }, n + 1)

/-- A concrete info record whose APIVersion is deliberately not "1". -/
def testInfo : InfoResponse :=
  { APIVersion := "9", Author := "foo", Color := "#000000",
    Head := "default", Tail := "default", Version := "9.9" }

/-- A concrete server with the default logger mask. -/
def testServer : BattlesnakeServer Nat :=
  New Nat "8080" testInfo LDefault testMoveFunc testCodec

/-- A concrete server with the debug bit enabled as well. -/
def testServerDebug : BattlesnakeServer Nat :=
  New Nat "8080" testInfo (LDefault ||| LDebug) testMoveFunc testCodec

/-! ## Helper lemmas -/

/-- With an all-zero logger mask every route of the server emits no
log line at all, whatever the request and however its body decodes. -/
lemma serveRequest_logs_opts0 {sigma : Type} (cfg : BattlesnakeServer sigma)
    (h : cfg.logger.opts = 0) (r : Request) (s : sigma) :
    (serveRequest cfg r s).logs = [] := by
  have hdbg : cfg.logger.Enabled LDebug = false := by
    simp [Logger.Enabled, h]
  have herr : ∀ msg, cfg.logger.Err msg = [] := by
    intro msg; simp [Logger.Err, h]
  have hinfo : ∀ msg, cfg.logger.Info msg = [] := by
    intro msg; simp [Logger.Info, h]
  by_cases h1 : r.path = "/start"
  · simp only [serveRequest, withRequestLogging, hdbg, h1, if_true, Bool.false_eq_true,
      if_false, startHandler]
    rcases hb : r.body.bind cfg.codec.decodeGameState with e | st <;> simp [hb, herr, hinfo]
  · by_cases h2 : r.path = "/end"
    · simp only [serveRequest, withRequestLogging, hdbg, h1, h2, if_true, Bool.false_eq_true,
        if_false, endHandler]
      rcases hb : r.body.bind cfg.codec.decodeGameState with e | st <;> simp [hb, herr, hinfo]
    · by_cases h3 : r.path = "/move"
      · simp only [serveRequest, withRequestLogging, hdbg, h1, h2, h3, if_true,
          Bool.false_eq_true, if_false, moveHandler]
        rcases hb : r.body.bind cfg.codec.decodeGameState with e | st
        · simp [hb, herr]
        · rcases hm : cfg.codec.encodeMove (cfg.moveFunc st cfg.logger s).1 with e2 | enc <;>
            simp [hb, hm, herr, hinfo]
      · simp only [serveRequest, withRequestLogging, hdbg, h1, h2, h3, if_true,
          Bool.false_eq_true, if_false, indexHandler]
        by_cases h4 : r.path = "/"
        · simp only [h4]
          rcases hi : cfg.codec.encodeInfo cfg.info with e | enc <;> simp [hi, herr]
        · simp [h4]

/-- Reduction of Except.bind at an ok value. -/
lemma exceptBindOk {eps alpha beta : Type} (a : alpha) (f : alpha → Except eps beta) :
    (Except.ok a : Except eps alpha).bind f = f a := rfl

/-! ## Claim theorems -/

/-- Claim C8: for a Logger built over bitmask m, each level method
(Err, Warn, Info, Debug) is a no-op exactly when its distinct bit
(error=1, warning=2, info=4, debug=8) is clear in m, and otherwise
writes exactly one line made of the level name followed by the
message; the default mask enables exactly error, warning and info, so
Debug under it is a no-op. -/
theorem logger_level_gating (m : Nat) (msg : String) :
    (Logger.Err ⟨m⟩ msg = [] ↔ m &&& LError = 0) ∧
    (m &&& LError ≠ 0 → Logger.Err ⟨m⟩ msg = ["ERROR " ++ msg]) ∧
    (Logger.Warn ⟨m⟩ msg = [] ↔ m &&& LWarning = 0) ∧
    (m &&& LWarning ≠ 0 → Logger.Warn ⟨m⟩ msg = ["WARN " ++ msg]) ∧
    (Logger.Info ⟨m⟩ msg = [] ↔ m &&& LInfo = 0) ∧
    (m &&& LInfo ≠ 0 → Logger.Info ⟨m⟩ msg = ["INFO " ++ msg]) ∧
    (Logger.Debug ⟨m⟩ msg = [] ↔ m &&& LDebug = 0) ∧
    (m &&& LDebug ≠ 0 → Logger.Debug ⟨m⟩ msg = ["DEBUG " ++ msg]) ∧
    LError = 1 ∧ LWarning = 2 ∧ LInfo = 4 ∧ LDebug = 8 ∧
    LDefault = (LError ||| LWarning ||| LInfo) ∧
    (NewLogger LDefault).Enabled LError = true ∧
    (NewLogger LDefault).Enabled LWarning = true ∧
    (NewLogger LDefault).Enabled LInfo = true ∧
    (NewLogger LDefault).Enabled LDebug = false ∧
    Logger.Debug (NewLogger LDefault) msg = [] := by
  refine ⟨?_, ?_, ?_, ?_, ?_, ?_, ?_, ?_, rfl, rfl, rfl, rfl, rfl,
    by decide, by decide, by decide, by decide, ?_⟩
  · by_cases h : m &&& LError = 0 <;> simp [Logger.Err, h]
  · intro h; simp [Logger.Err, h]
  · by_cases h : m &&& LWarning = 0 <;> simp [Logger.Warn, h]
  · intro h; simp [Logger.Warn, h]
  · by_cases h : m &&& LInfo = 0 <;> simp [Logger.Info, h]
  · intro h; simp [Logger.Info, h]
  · by_cases h : m &&& LDebug = 0 <;> simp [Logger.Debug, h]
  · intro h; simp [Logger.Debug, h]
  · simp only [Logger.Debug, NewLogger]
    exact if_neg (by decide)

/-- Witness for C8 at the default mask 7: the error method writes its
single prefixed line and the debug method is a no-op. -/
theorem logger_level_gating_witness :
    Logger.Err ⟨7⟩ "boom" = ["ERROR " ++ "boom"] ∧ Logger.Debug ⟨7⟩ "quiet" = [] :=
  ⟨(logger_level_gating 7 "boom").2.1 (by decide),
    ((logger_level_gating 7 "quiet").2.2.2.2.2.2.1).mpr (by decide)⟩

/-- Claim C10: with bitmask 0 every level method is a no-op, Enabled
is false for every single-bit level, and a server constructed with
loggerOpts 0 emits no log output for any request whatsoever. -/
theorem zero_mask_logger_silent (sigma : Type) (port : String) (info : InfoResponse)
    (mf : GameState → Logger → sigma → MoveResponse × sigma) (codec : JsonCodec)
    (r : Request) (s : sigma) (msg : String) :
    (serveRequest (New sigma port info 0 mf codec) r s).logs = [] ∧
    (NewLogger 0).Enabled LError = false ∧
    (NewLogger 0).Enabled LWarning = false ∧
    (NewLogger 0).Enabled LInfo = false ∧
    (NewLogger 0).Enabled LDebug = false ∧
    Logger.Err (NewLogger 0) msg = [] ∧
    Logger.Warn (NewLogger 0) msg = [] ∧
    Logger.Info (NewLogger 0) msg = [] ∧
    Logger.Debug (NewLogger 0) msg = [] := by
  refine ⟨serveRequest_logs_opts0 _ rfl r s, by decide, by decide, by decide, by decide,
    ?_, ?_, ?_, ?_⟩ <;>
    simp [Logger.Err, Logger.Warn, Logger.Info, Logger.Debug, NewLogger]

/-- Claim C6: when the debug bit is clear in the logger mask, the
request-logging wrapper returns the wrapped handler unchanged, so
every wrapped call is literally a direct call: same response, same
logs, no body capture. The check happens once, at wrapping time. -/
theorem debug_disabled_middleware_identity (sigma : Type) (l : Logger)
    (next : Handler sigma) (h : l.Enabled LDebug = false) :
    withRequestLogging l next = next := by
  simp [withRequestLogging, h]

/-- Witness for C6 at the default mask (debug bit clear): wrapping the
start handler of the concrete test server is the identity. -/
theorem debug_disabled_middleware_identity_witness :
    (NewLogger LDefault).Enabled LDebug = false ∧
    withRequestLogging (NewLogger LDefault) (startHandler testServer) =
      startHandler testServer :=
  ⟨by decide,
    debug_disabled_middleware_identity Nat (NewLogger LDefault) (startHandler testServer)
      (by decide)⟩

/-- Claim C7: when the debug bit is set, the middleware reads the
whole body: on read failure it responds 400 without running the
wrapped handler; on success the wrapped handler sees the identical
request and a debug line carrying method, path and the exact raw body
text precedes every line the handler writes. -/
theorem debug_enabled_middleware_spec (sigma : Type) (l : Logger) (next : Handler sigma)
    (r : Request) (s : sigma) (h : l.Enabled LDebug = true) :
    (∀ e, r.body = Except.error e →
        withRequestLogging l next r s =
          ⟨⟨400, [], ""⟩, l.Err ("Failed to read request body: " ++ e), s⟩) ∧
    (∀ b, r.body = Except.ok b →
        withRequestLogging l next r s =
          ⟨(next r s).resp,
            ["DEBUG " ++ (r.method ++ " " ++ r.path ++ " " ++ b ++ "\n")] ++ (next r s).logs,
            (next r s).st⟩) := by
  have h8 : l.opts &&& LDebug ≠ 0 := by
    simpa [Logger.Enabled, bne_iff_ne] using h
  constructor
  · intro e he
    simp [withRequestLogging, h, he]
  · intro b hb
    have hr : ({ r with body := Except.ok b } : Request) = r := by
      obtain ⟨m, p, bd⟩ := r
      simp only at hb
      simp [hb]
    simp [withRequestLogging, h, hb, hr, Logger.Debug, h8]

/-- Claim C1: a request to /move whose body decodes as a GameState
invokes the caller's move function exactly once with the decoded state
and the server's logger (visible in the threaded caller state), and on
encode success responds 200 with Content-Type application/json and
exactly the encoded MoveResponse as body, emitting the info line with
suffix of the move value; an encode failure yields 500 instead. -/
theorem move_valid_request_spec (sigma : Type) (cfg : BattlesnakeServer sigma)
    (r : Request) (s : sigma) (b : String) (state : GameState)
    (hpath : r.path = "/move") (hbody : r.body = Except.ok b)
    (hdec : cfg.codec.decodeGameState b = Except.ok state) :
    (∀ enc, cfg.codec.encodeMove (cfg.moveFunc state cfg.logger s).1 = Except.ok enc →
        serveRequest cfg r s =
          ⟨⟨200, [("Content-Type", "application/json")], enc⟩,
            cfg.logger.Debug (r.method ++ " " ++ r.path ++ " " ++ b ++ "\n") ++
              cfg.logger.Info ("Game ID " ++ state.Game.ID ++ " [Turn "
                ++ toString state.Turn ++ "] Snake ID " ++ state.You.ID ++ " - Move: "
                ++ (cfg.moveFunc state cfg.logger s).1.Move),
            (cfg.moveFunc state cfg.logger s).2⟩) ∧
    (∀ e, cfg.codec.encodeMove (cfg.moveFunc state cfg.logger s).1 = Except.error e →
        serveRequest cfg r s =
          ⟨⟨500, [("Content-Type", "application/json")], ""⟩,
            cfg.logger.Debug (r.method ++ " " ++ r.path ++ " " ++ b ++ "\n") ++
              cfg.logger.Err ("Failed to encode move response, " ++ e),
            (cfg.moveFunc state cfg.logger s).2⟩) := by
  obtain ⟨m, p, bd⟩ := r
  simp only at hpath hbody
  subst hpath
  subst hbody
  constructor
  · intro enc henc
    cases hdbg : cfg.logger.Enabled LDebug
    · have h0 : cfg.logger.opts &&& LDebug = 0 := by
        simpa [Logger.Enabled] using hdbg
      simp [serveRequest, withRequestLogging, hdbg, moveHandler, exceptBindOk, hdec, henc,
        Logger.Debug, h0]
    · simp [serveRequest, withRequestLogging, hdbg, moveHandler, exceptBindOk, hdec, henc]
  · intro e henc
    cases hdbg : cfg.logger.Enabled LDebug
    · have h0 : cfg.logger.opts &&& LDebug = 0 := by
        simpa [Logger.Enabled] using hdbg
      simp [serveRequest, withRequestLogging, hdbg, moveHandler, exceptBindOk, hdec, henc,
        Logger.Debug, h0]
    · simp [serveRequest, withRequestLogging, hdbg, moveHandler, exceptBindOk, hdec, henc]

/-- Witness for C1 on the concrete server: POST /move with the empty
JSON object answers 200 with the encoded up-move and its info line,
and the caller state counts exactly one invocation. -/
theorem move_valid_request_spec_witness :
    serveRequest testServer ⟨"POST", "/move", Except.ok "\x7b\x7d"⟩ 0 =
      ⟨⟨200, [("Content-Type", "application/json")],
          "\x7b\"move\":\"up\",\"shout\":\"Hi!\"\x7d\n"⟩,
        ["INFO Game ID  [Turn 0] Snake ID  - Move: up"], 1⟩ := by
  have h := (move_valid_request_spec Nat testServer ⟨"POST", "/move", Except.ok "\x7b\x7d"⟩ 0
      "\x7b\x7d" emptyGameState rfl rfl (by decide)).1
      "\x7b\"move\":\"up\",\"shout\":\"Hi!\"\x7d\n" (by decide)
  rw [h]; decide

/-- Claim C2: on /start, /end and /move, a body that fails to decode
yields a 400 response, leaves the caller state untouched (the move
function is not invoked), and emits an error-level line describing the
decode failure for that route. -/
theorem decode_failure_responds_400 (sigma : Type) (cfg : BattlesnakeServer sigma)
    (r : Request) (s : sigma) (b e : String)
    (hpath : r.path = "/start" ∨ r.path = "/end" ∨ r.path = "/move")
    (hbody : r.body = Except.ok b)
    (hdec : cfg.codec.decodeGameState b = Except.error e) :
    serveRequest cfg r s =
      ⟨⟨400, [], ""⟩,
        cfg.logger.Debug (r.method ++ " " ++ r.path ++ " " ++ b ++ "\n") ++
          cfg.logger.Err ("Failed to decode "
            ++ (if r.path = "/start" then "start" else if r.path = "/end" then "end" else "move")
            ++ " request body: " ++ e),
        s⟩ := by
  obtain ⟨m, p, bd⟩ := r
  simp only at hpath hbody
  subst hbody
  rcases hpath with hp | hp | hp <;> subst hp <;> cases hdbg : cfg.logger.Enabled LDebug
  · have h0 : cfg.logger.opts &&& LDebug = 0 := by simpa [Logger.Enabled] using hdbg
    simp [serveRequest, withRequestLogging, hdbg, startHandler, exceptBindOk, hdec,
      Logger.Debug, h0]
  · simp [serveRequest, withRequestLogging, hdbg, startHandler, exceptBindOk, hdec]
  · have h0 : cfg.logger.opts &&& LDebug = 0 := by simpa [Logger.Enabled] using hdbg
    simp [serveRequest, withRequestLogging, hdbg, endHandler, exceptBindOk, hdec,
      Logger.Debug, h0]
  · simp [serveRequest, withRequestLogging, hdbg, endHandler, exceptBindOk, hdec]
  · have h0 : cfg.logger.opts &&& LDebug = 0 := by simpa [Logger.Enabled] using hdbg
    simp [serveRequest, withRequestLogging, hdbg, moveHandler, exceptBindOk, hdec,
      Logger.Debug, h0]
  · simp [serveRequest, withRequestLogging, hdbg, moveHandler, exceptBindOk, hdec]

/-- Witness for C2 on the concrete server: POST /start with a
malformed body answers 400 and logs the decode error line. -/
theorem decode_failure_responds_400_witness :
    serveRequest testServer ⟨"POST", "/start", Except.ok "nope"⟩ 0 =
      ⟨⟨400, [], ""⟩, ["ERROR Failed to decode start request body: invalid character"], 0⟩ := by
  have h := decode_failure_responds_400 Nat testServer ⟨"POST", "/start", Except.ok "nope"⟩ 0
      "nope" "invalid character" (Or.inl rfl) rfl (by decide)
  rw [h]; decide

/-- Claim C4: a body that decodes as a GameState makes /start and /end
answer 200 with an empty body and emit one info line naming the game
ID, the turn and the snake ID, suffixed "- Start" and "- End"
respectively. -/
theorem start_end_valid_request_spec (sigma : Type) (cfg : BattlesnakeServer sigma)
    (r : Request) (s : sigma) (b : String) (state : GameState)
    (hpath : r.path = "/start" ∨ r.path = "/end")
    (hbody : r.body = Except.ok b)
    (hdec : cfg.codec.decodeGameState b = Except.ok state) :
    serveRequest cfg r s =
      ⟨⟨200, [], ""⟩,
        cfg.logger.Debug (r.method ++ " " ++ r.path ++ " " ++ b ++ "\n") ++
          cfg.logger.Info ("Game ID " ++ state.Game.ID ++ " [Turn " ++ toString state.Turn
            ++ "] Snake ID " ++ state.You.ID
            ++ (if r.path = "/start" then " - Start" else " - End")),
        s⟩ := by
  obtain ⟨m, p, bd⟩ := r
  simp only at hpath hbody
  subst hbody
  rcases hpath with hp | hp <;> subst hp <;> cases hdbg : cfg.logger.Enabled LDebug
  · have h0 : cfg.logger.opts &&& LDebug = 0 := by simpa [Logger.Enabled] using hdbg
    simp [serveRequest, withRequestLogging, hdbg, startHandler, exceptBindOk, hdec,
      Logger.Debug, h0]
  · simp [serveRequest, withRequestLogging, hdbg, startHandler, exceptBindOk, hdec]
  · have h0 : cfg.logger.opts &&& LDebug = 0 := by simpa [Logger.Enabled] using hdbg
    simp [serveRequest, withRequestLogging, hdbg, endHandler, exceptBindOk, hdec,
      Logger.Debug, h0]
  · simp [serveRequest, withRequestLogging, hdbg, endHandler, exceptBindOk, hdec]

/-- Witness for C4 on the concrete server: POST /end with the empty
JSON object answers 200 with empty body and logs the end info line. -/
theorem start_end_valid_request_spec_witness :
    serveRequest testServer ⟨"POST", "/end", Except.ok "\x7b\x7d"⟩ 0 =
      ⟨⟨200, [], ""⟩, ["INFO Game ID  [Turn 0] Snake ID  - End"], 0⟩ := by
  have h := start_end_valid_request_spec Nat testServer ⟨"POST", "/end", Except.ok "\x7b\x7d"⟩ 0
      "\x7b\x7d" emptyGameState (Or.inr rfl) rfl (by decide)
  rw [h]; decide

/-- Claim C3: server construction overwrites the caller-supplied
API-version with the constant "1", and a request for "/" is answered
200 with content-type application/json and the encoding of that
updated info record, whatever API-version the caller supplied. -/
theorem new_forces_apiversion_index (sigma : Type) (port : String) (info : InfoResponse)
    (loggerOpts : Nat) (mf : GameState → Logger → sigma → MoveResponse × sigma)
    (codec : JsonCodec) (r : Request) (s : sigma) (b enc : String)
    (hpath : r.path = "/") (hbody : r.body = Except.ok b)
    (henc : codec.encodeInfo { info with APIVersion := apiVersion } = Except.ok enc) :
    (New sigma port info loggerOpts mf codec).info.APIVersion = "1" ∧
    serveRequest (New sigma port info loggerOpts mf codec) r s =
      ⟨⟨200, [("content-type", "application/json")], enc⟩,
        (NewLogger loggerOpts).Debug (r.method ++ " " ++ r.path ++ " " ++ b ++ "\n"),
        s⟩ := by
  obtain ⟨m, p, bd⟩ := r
  simp only at hpath hbody
  subst hpath
  subst hbody
  refine ⟨rfl, ?_⟩
  cases hdbg : (NewLogger loggerOpts).Enabled LDebug <;> simp only [NewLogger] at hdbg
  · have h0 : loggerOpts &&& LDebug = 0 := by simpa [Logger.Enabled] using hdbg
    simp [serveRequest, withRequestLogging, hdbg, indexHandler, New, NewLogger, henc,
      Logger.Debug, h0]
  · simp [serveRequest, withRequestLogging, hdbg, indexHandler, New, NewLogger, henc]

/-- Witness for C3 on the concrete server, whose info record was
supplied with APIVersion "9": construction leaves APIVersion "1" and
GET / answers the encoded record with apiversion "1". -/
theorem new_forces_apiversion_index_witness :
    (New Nat "8080" testInfo LDefault testMoveFunc testCodec).info.APIVersion = "1" ∧
    serveRequest (New Nat "8080" testInfo LDefault testMoveFunc testCodec)
        ⟨"GET", "/", Except.ok ""⟩ 0 =
      ⟨⟨200, [("content-type", "application/json")],
          "\x7b\"apiversion\":\"1\",\"author\":\"foo\"\x7d\n"⟩, [], 0⟩ := by
  have h := new_forces_apiversion_index Nat "8080" testInfo LDefault testMoveFunc testCodec
      ⟨"GET", "/", Except.ok ""⟩ 0 "" "\x7b\"apiversion\":\"1\",\"author\":\"foo\"\x7d\n"
      rfl rfl (by decide)
  exact ⟨h.1, by rw [h.2]; decide⟩

/-- Counterexample to C5 as stated: "/start" is a path other than
exactly "/", yet a GET to it on the concrete server (whose empty body
fails to decode) is answered 400 by the start handler, not 404. -/
theorem catchall_404_counterexample :
    ("/start" : String) ≠ "/" ∧
    (serveRequest testServer ⟨"GET", "/start", Except.ok ""⟩ 0).resp.status = 400 ∧
    (serveRequest testServer ⟨"GET", "/start", Except.ok ""⟩ 0).resp.status ≠ 404 := by
  refine ⟨by decide, by decide, by decide⟩

/-- Claim C5 as amended: a readable-body request for any path other
than the four registered ones ("/", "/start", "/end", "/move") is
answered 404, and a request for "/" with any HTTP method is dispatched
to the same wrapped index handler (the dispatch looks only at the
path). -/
theorem catchall_404_amended (sigma : Type) (cfg : BattlesnakeServer sigma)
    (r : Request) (s : sigma) (b : String) (hbody : r.body = Except.ok b) :
    ((r.path ≠ "/" ∧ r.path ≠ "/start" ∧ r.path ≠ "/end" ∧ r.path ≠ "/move") →
        serveRequest cfg r s =
          ⟨⟨404, [], ""⟩, cfg.logger.Debug (r.method ++ " " ++ r.path ++ " " ++ b ++ "\n"),
            s⟩) ∧
    (r.path = "/" → serveRequest cfg r s = withRequestLogging cfg.logger (indexHandler cfg) r s) := by
  obtain ⟨m, p, bd⟩ := r
  simp only at hbody
  subst hbody
  constructor
  · rintro ⟨h1, h2, h3, h4⟩
    simp only at h1 h2 h3 h4
    cases hdbg : cfg.logger.Enabled LDebug
    · have h0 : cfg.logger.opts &&& LDebug = 0 := by simpa [Logger.Enabled] using hdbg
      simp [serveRequest, withRequestLogging, hdbg, indexHandler, h1, h2, h3, h4,
        Logger.Debug, h0]
    · simp [serveRequest, withRequestLogging, hdbg, indexHandler, h1, h2, h3, h4]
  · intro hp
    simp only at hp
    subst hp
    simp [serveRequest]

/-- Witness for C5-as-amended on the concrete server: an unregistered
path is answered 404, and "/" with method PUT is dispatched to the
wrapped index handler. -/
theorem catchall_404_amended_witness :
    (serveRequest testServer ⟨"GET", "/snake", Except.ok ""⟩ 0 = ⟨⟨404, [], ""⟩, [], 0⟩) ∧
    (serveRequest testServer ⟨"PUT", "/", Except.ok ""⟩ 0 =
      withRequestLogging testServer.logger (indexHandler testServer)
        ⟨"PUT", "/", Except.ok ""⟩ 0) := by
  constructor
  · have h := (catchall_404_amended Nat testServer ⟨"GET", "/snake", Except.ok ""⟩ 0 ""
      rfl).1 (by decide)
    rw [h]; decide
  · exact (catchall_404_amended Nat testServer ⟨"PUT", "/", Except.ok ""⟩ 0 "" rfl).2 rfl

/-- Claim C9: on every registered path, two requests that differ only
in their HTTP method get the same response (status, headers and body)
and leave the caller state alike: no route handler inspects the
method. -/
theorem handlers_method_insensitive (sigma : Type) (cfg : BattlesnakeServer sigma)
    (p m1 m2 : String) (bd : Except String String) (s : sigma)
    (hp : p = "/" ∨ p = "/start" ∨ p = "/end" ∨ p = "/move") :
    (serveRequest cfg ⟨m1, p, bd⟩ s).resp = (serveRequest cfg ⟨m2, p, bd⟩ s).resp ∧
    (serveRequest cfg ⟨m1, p, bd⟩ s).st = (serveRequest cfg ⟨m2, p, bd⟩ s).st := by
  rcases hp with hp | hp | hp | hp <;> subst hp <;>
    cases hdbg : cfg.logger.Enabled LDebug <;>
      simp only [serveRequest, withRequestLogging, hdbg] <;>
        rcases bd with e | bb <;> exact ⟨rfl, rfl⟩

/-- Witness for C9 on the concrete server: a GET and a POST to /move
with the same valid body produce the same response and caller state. -/
theorem handlers_method_insensitive_witness :
    (serveRequest testServer ⟨"GET", "/move", Except.ok "\x7b\x7d"⟩ 0).resp =
      (serveRequest testServer ⟨"POST", "/move", Except.ok "\x7b\x7d"⟩ 0).resp ∧
    (serveRequest testServer ⟨"GET", "/move", Except.ok "\x7b\x7d"⟩ 0).st =
      (serveRequest testServer ⟨"POST", "/move", Except.ok "\x7b\x7d"⟩ 0).st :=
  handlers_method_insensitive Nat testServer "/move" "GET" "POST" (Except.ok "\x7b\x7d") 0
    (by decide)

/-- Witness for C7 with a debug-enabled logger and a malformed body:
the debug line with method, path and raw body precedes the wrapped
start handler's own output. -/
theorem debug_enabled_middleware_spec_witness :
    withRequestLogging (NewLogger (LDefault ||| LDebug)) (startHandler testServerDebug)
        ⟨"POST", "/start", Except.ok "bad"⟩ 0 =
      ⟨(startHandler testServerDebug ⟨"POST", "/start", Except.ok "bad"⟩ 0).resp,
        ["DEBUG " ++ ("POST" ++ " " ++ "/start" ++ " " ++ "bad" ++ "\n")] ++
          (startHandler testServerDebug ⟨"POST", "/start", Except.ok "bad"⟩ 0).logs,
        (startHandler testServerDebug ⟨"POST", "/start", Except.ok "bad"⟩ 0).st⟩ :=
  (debug_enabled_middleware_spec Nat (NewLogger (LDefault ||| LDebug))
    (startHandler testServerDebug) ⟨"POST", "/start", Except.ok "bad"⟩ 0 (by decide)).2
    "bad" rfl

end Server
